import Mathlib

/-!
Shallow embedding of the create-order saga system: the orchestrator in
internal/orchestrator/orchestrator.go and the three domain services in
internal/order/service.go, internal/payment/service.go and
internal/shipping/service.go.

Each service's in-memory map is modelled as an association list with
overwrite-on-insert semantics (`storeSet`) and lookup (`storeGet`).
The nondeterministic parts of a run — whether each remote call is delivered
(transport) and the outcome of the two `rand.Intn` draws — are passed in
explicitly through a `SagaEnv`.  The orchestrator additionally produces a
trace of the remote calls it attempts (and the compensation calls it skips),
so that call-ordering properties can be stated.
-/

namespace Saga

/-- proto order.OrderStatus. -/
inductive OrderStatus
  | UNSPECIFIED
  | PENDING
  | COMPLETED
  | CANCELLED
deriving DecidableEq, Repr

/-- proto payment.PaymentStatus. -/
inductive PaymentStatus
  | UNSPECIFIED
  | SUCCESS
  | FAILED
  | REFUNDED
deriving DecidableEq, Repr

/-- proto shipping.ShippingStatus. -/
inductive ShippingStatus
  | UNSPECIFIED
  | PENDING
  | SHIPPED
  | CANCELLED
deriving DecidableEq, Repr

/-- proto common.Item (float price modelled as a rational). -/
structure Item where
  productId : String
  quantity : Int
  price : Rat
deriving DecidableEq, Repr

/-- proto common.OrderDetails. -/
structure OrderDetails where
  userId : String
  items : List Item
deriving DecidableEq, Repr

/-- proto common.ShippingAddress. -/
structure ShippingAddress where
  street : String
  city : String
  state : String
  zipCode : String
  country : String
deriving DecidableEq, Repr

/-- proto common.CompensationResponse. -/
structure CompensationResponse where
  success : Bool
  message : String
deriving DecidableEq, Repr

/-- proto order.Order record. -/
structure Order where
  id : String
  userId : String
  items : List Item
  totalAmount : Rat
  status : OrderStatus
deriving DecidableEq, Repr

/-- proto payment.Payment record. -/
structure Payment where
  id : String
  orderId : String
  amount : Rat
  status : PaymentStatus
  transactionId : String
deriving DecidableEq, Repr

/-- proto shipping.Shipment record. -/
structure Shipment where
  id : String
  orderId : String
  address : ShippingAddress
  status : ShippingStatus
deriving DecidableEq, Repr

/-- The gRPC status codes the services use, plus `Unavailable` standing for a
transport-level failure of a remote call. -/
inductive GrpcCode
  | NotFound
  | InvalidArgument
  | Internal
  | Unavailable
deriving DecidableEq, Repr

/-- proto order.CreateOrderResponse. -/
structure CreateOrderResponse where
  orderId : String
  status : OrderStatus
deriving DecidableEq, Repr

/-- proto payment.ProcessPaymentResponse. -/
structure ProcessPaymentResponse where
  paymentId : String
  status : PaymentStatus
  message : String
deriving DecidableEq, Repr

/-- proto shipping.ArrangeShippingResponse. -/
structure ArrangeShippingResponse where
  shipmentId : String
  status : ShippingStatus
deriving DecidableEq, Repr

/-- An in-memory keyed store (a Go `map[string]*T`) as an association list. -/
abbrev Store (α : Type) := List (String × α)

/-- Map write `s[k] = v`: overwrite the entry for `k`, or append it. -/
def storeSet (k : String) (v : α) : Store α → Store α
  | [] => [(k, v)]
  | (k', v') :: rest =>
      if k' = k then (k, v) :: rest else (k', v') :: storeSet k v rest

/-- Map read `v, exists := s[k]`. -/
def storeGet (k : String) : Store α → Option α
  | [] => none
  | (k', v) :: rest => if k = k' then some v else storeGet k rest

abbrev OrderStore := Store Order
abbrev PaymentStore := Store Payment
abbrev ShipmentStore := Store Shipment

/-- `calculateTotal` from internal/order/service.go. -/
def calculateTotal (items : List Item) : Rat :=
  items.foldl (fun total item => total + item.price * (item.quantity : Rat)) 0

namespace OrderService

/-- `Server.CreateOrder` from internal/order/service.go: derives the order id
as "order-" + user id, stores a PENDING record under that key (overwriting any
existing record) and returns the id and status.  It never returns an error. -/
def CreateOrder (s : OrderStore) (details : OrderDetails) :
    OrderStore × CreateOrderResponse :=
  let orderID := "order-" ++ details.userId
  let newOrder : Order :=
    { id := orderID
      userId := details.userId
      items := details.items
      totalAmount := calculateTotal details.items
      status := OrderStatus.PENDING }
  (storeSet orderID newOrder s, { orderId := orderID, status := newOrder.status })

/-- `Server.CancelOrder` from internal/order/service.go. -/
def CancelOrder (s : OrderStore) (orderID : String) :
    OrderStore × Except GrpcCode CompensationResponse :=
  match storeGet orderID s with
  | none => (s, Except.error GrpcCode.NotFound)
  | some order =>
      if order.status = OrderStatus.CANCELLED then
        (s, Except.ok { success := true, message := "Order already cancelled" })
      else
        (storeSet orderID { order with status := OrderStatus.CANCELLED } s,
         Except.ok { success := true, message := "Order cancelled successfully" })

/-- `Server.CompleteOrder` from internal/order/service.go. -/
def CompleteOrder (s : OrderStore) (orderID : String) :
    OrderStore × Except GrpcCode CompensationResponse :=
  match storeGet orderID s with
  | none => (s, Except.error GrpcCode.NotFound)
  | some order =>
      if order.status = OrderStatus.PENDING then
        (storeSet orderID { order with status := OrderStatus.COMPLETED } s,
         Except.ok { success := true, message := "Order completion processed" })
      else
        (s, Except.ok { success := true, message := "Order completion processed" })

end OrderService

namespace PaymentService

/-- `Server.ProcessPayment` from internal/payment/service.go.  The
`rand.Intn(10) > 2` draw is the `succeeded` parameter.  A record is persisted
on both outcomes; the response is never a call error. -/
def ProcessPayment (succeeded : Bool) (s : PaymentStore) (orderID : String)
    (amount : Rat) : PaymentStore × ProcessPaymentResponse :=
  let paymentID := "pay-" ++ orderID
  let paymentStatus := if succeeded then PaymentStatus.SUCCESS else PaymentStatus.FAILED
  let message :=
    if succeeded then "Payment processed successfully."
    else "Payment failed due to insufficient funds."
  let newPayment : Payment :=
    { id := paymentID
      orderId := orderID
      amount := amount
      status := paymentStatus
      transactionId := "" }
  (storeSet paymentID newPayment s,
   { paymentId := paymentID, status := paymentStatus, message := message })

/-- `Server.RefundPayment` from internal/payment/service.go. -/
def RefundPayment (s : PaymentStore) (orderID paymentID : String) :
    PaymentStore × Except GrpcCode CompensationResponse :=
  match storeGet paymentID s with
  | none => (s, Except.error GrpcCode.NotFound)
  | some payment =>
      if payment.orderId ≠ orderID then
        (s, Except.error GrpcCode.InvalidArgument)
      else if payment.status = PaymentStatus.REFUNDED then
        (s, Except.ok { success := true, message := "Payment already refunded" })
      else if payment.status = PaymentStatus.FAILED then
        (s, Except.ok
          { success := true, message := "Payment originally failed, no refund needed" })
      else
        (storeSet paymentID { payment with status := PaymentStatus.REFUNDED } s,
         Except.ok { success := true, message := "Payment refunded successfully" })

end PaymentService

namespace ShippingService

/-- `Server.ArrangeShipping` from internal/shipping/service.go.  The
`rand.Intn(10) > 1` draw is the `succeeded` parameter.  A carrier failure is a
gRPC `Internal` error and stores nothing; success stores a SHIPPED record. -/
def ArrangeShipping (succeeded : Bool) (s : ShipmentStore) (orderID : String)
    (addr : ShippingAddress) : ShipmentStore × Except GrpcCode ArrangeShippingResponse :=
  if !succeeded then
    (s, Except.error GrpcCode.Internal)
  else
    let shipmentID := "ship-" ++ orderID
    let newShipment : Shipment :=
      { id := shipmentID
        orderId := orderID
        address := addr
        status := ShippingStatus.SHIPPED }
    (storeSet shipmentID newShipment s,
     Except.ok { shipmentId := shipmentID, status := ShippingStatus.SHIPPED })

/-- `Server.CancelShipping` from internal/shipping/service.go. -/
def CancelShipping (s : ShipmentStore) (orderID shipmentID : String) :
    ShipmentStore × Except GrpcCode CompensationResponse :=
  match storeGet shipmentID s with
  | none => (s, Except.error GrpcCode.NotFound)
  | some shipment =>
      if shipment.orderId ≠ orderID then
        (s, Except.error GrpcCode.InvalidArgument)
      else if shipment.status = ShippingStatus.CANCELLED then
        (s, Except.ok { success := true, message := "Shipment already cancelled" })
      else
        (storeSet shipmentID { shipment with status := ShippingStatus.CANCELLED } s,
         Except.ok { success := true, message := "Shipping cancelled successfully" })

end ShippingService

/-- The combined state of the three service stores. -/
structure World where
  orders : OrderStore
  payments : PaymentStore
  shipments : ShipmentStore
deriving DecidableEq, Repr

/-- The environment of one saga run: whether each remote call made by the
orchestrator is delivered to its service (a `false` is a transport failure —
the call errors and the service never runs), and the outcomes of the two
random draws inside the payment and shipping services. -/
structure SagaEnv where
  createOrderDelivered : Bool
  processPaymentDelivered : Bool
  paymentSucceeded : Bool
  arrangeShippingDelivered : Bool
  shippingSucceeded : Bool
  cancelShippingDelivered : Bool
  refundPaymentDelivered : Bool
  cancelOrderDelivered : Bool
  completeOrderDelivered : Bool
deriving DecidableEq, Repr

/-- One observable remote-call event of the orchestrator: each forward call it
issues, each compensation call it issues, and each compensation it skips
because the forward step never produced an id. -/
inductive SagaEvent
  | callCreateOrder
  | callProcessPayment (orderId : String)
  | callArrangeShipping (orderId : String)
  | callCancelShipping (orderId shipmentId : String)
  | skipCancelShipping (orderId : String)
  | callRefundPayment (orderId paymentId : String)
  | skipRefundPayment (orderId : String)
  | callCancelOrder (orderId : String)
  | skipCancelOrder
  | callCompleteOrder (orderId : String)
deriving DecidableEq, Repr

/-- Is an event an actual RefundPayment remote call (as opposed to a skip)? -/
def isCallRefundPayment : SagaEvent → Bool
  | SagaEvent.callRefundPayment _ _ => true
  | _ => false

namespace Orchestrator

/-- `Orchestrator.compensateCreateOrder`: skips the CancelOrder call when no
order id was generated (nil or empty); otherwise issues CancelOrder, whose
result is only logged. -/
def compensateCreateOrder (env : SagaEnv) (w : World) :
    Option String → World × List SagaEvent
  | none => (w, [SagaEvent.skipCancelOrder])
  | some orderID =>
      if orderID = "" then (w, [SagaEvent.skipCancelOrder])
      else
        let w' :=
          if env.cancelOrderDelivered then
            { w with orders := (OrderService.CancelOrder w.orders orderID).1 }
          else w
        (w', [SagaEvent.callCancelOrder orderID])

/-- `Orchestrator.compensateProcessPayment`: skips the RefundPayment call when
no payment id was generated; otherwise issues RefundPayment, whose result is
only logged. -/
def compensateProcessPayment (env : SagaEnv) (w : World)
    (orderID paymentID : String) : World × List SagaEvent :=
  if paymentID = "" then (w, [SagaEvent.skipRefundPayment orderID])
  else
    let w' :=
      if env.refundPaymentDelivered then
        { w with payments := (PaymentService.RefundPayment w.payments orderID paymentID).1 }
      else w
    (w', [SagaEvent.callRefundPayment orderID paymentID])

/-- `Orchestrator.compensateArrangeShipping`: skips the CancelShipping call
when no shipment id was generated; otherwise issues CancelShipping, whose
result is only logged. -/
def compensateArrangeShipping (env : SagaEnv) (w : World)
    (orderID shipmentID : String) : World × List SagaEvent :=
  if shipmentID = "" then (w, [SagaEvent.skipCancelShipping orderID])
  else
    let w' :=
      if env.cancelShippingDelivered then
        { w with shipments := (ShippingService.CancelShipping w.shipments orderID shipmentID).1 }
      else w
    (w', [SagaEvent.callCancelShipping orderID shipmentID])

/-- `Orchestrator.ExecuteCreateOrderSaga`: runs the three forward steps in
sequence, compensates in reverse order on failure (including the step that
just failed), finalizes with CompleteOrder on success, and returns the final
world, the trace of attempted calls, and `some reason` on failure / `none` on
success.  A finalize failure does not change the `none` result. -/
def ExecuteCreateOrderSaga (env : SagaEnv) (w : World) (details : OrderDetails)
    (paymentAmount : Rat) (addr : ShippingAddress) :
    World × List SagaEvent × Option String :=
  -- Step 1: Create Order
  if env.createOrderDelivered then
    let co := OrderService.CreateOrder w.orders details
    let w1 : World := { w with orders := co.1 }
    let orderID := co.2.orderId
    -- Step 2: Process Payment
    if env.processPaymentDelivered then
      let pp := PaymentService.ProcessPayment env.paymentSucceeded w1.payments orderID paymentAmount
      let w2 : World := { w1 with payments := pp.1 }
      if pp.2.status = PaymentStatus.FAILED then
        -- business failure: PaymentID was never assigned to the saga state
        let c2 := compensateProcessPayment env w2 orderID ""
        let c1 := compensateCreateOrder env c2.1 (some orderID)
        (c1.1,
         [SagaEvent.callCreateOrder, SagaEvent.callProcessPayment orderID] ++ c2.2 ++ c1.2,
         some "failed to process payment")
      else
        let paymentID := pp.2.paymentId
        -- Step 3: Arrange Shipping
        if env.arrangeShippingDelivered then
          let ar := ShippingService.ArrangeShipping env.shippingSucceeded w2.shipments orderID addr
          match ar.2 with
          | Except.error _ =>
              -- carrier failure: ShipmentID was never assigned
              let w3 : World := { w2 with shipments := ar.1 }
              let c3 := compensateArrangeShipping env w3 orderID ""
              let c2 := compensateProcessPayment env c3.1 orderID paymentID
              let c1 := compensateCreateOrder env c2.1 (some orderID)
              (c1.1,
               [SagaEvent.callCreateOrder, SagaEvent.callProcessPayment orderID,
                SagaEvent.callArrangeShipping orderID] ++ c3.2 ++ c2.2 ++ c1.2,
               some "failed to arrange shipping")
          | Except.ok _ =>
              let w3 : World := { w2 with shipments := ar.1 }
              -- Saga success; finalize with CompleteOrder on a fresh deadline
              let w4 : World :=
                if env.completeOrderDelivered then
                  { w3 with orders := (OrderService.CompleteOrder w3.orders orderID).1 }
                else w3
              (w4,
               [SagaEvent.callCreateOrder, SagaEvent.callProcessPayment orderID,
                SagaEvent.callArrangeShipping orderID, SagaEvent.callCompleteOrder orderID],
               none)
        else
          -- transport failure on ArrangeShipping: no shipment id
          let c3 := compensateArrangeShipping env w2 orderID ""
          let c2 := compensateProcessPayment env c3.1 orderID paymentID
          let c1 := compensateCreateOrder env c2.1 (some orderID)
          (c1.1,
           [SagaEvent.callCreateOrder, SagaEvent.callProcessPayment orderID,
            SagaEvent.callArrangeShipping orderID] ++ c3.2 ++ c2.2 ++ c1.2,
           some "failed to arrange shipping")
    else
      -- transport failure on ProcessPayment: no payment id
      let c2 := compensateProcessPayment env w1 orderID ""
      let c1 := compensateCreateOrder env c2.1 (some orderID)
      (c1.1,
       [SagaEvent.callCreateOrder, SagaEvent.callProcessPayment orderID] ++ c2.2 ++ c1.2,
       some "failed to process payment")
  else
    -- transport failure on CreateOrder: no order id was generated
    let c1 := compensateCreateOrder env w none
    (c1.1, SagaEvent.callCreateOrder :: c1.2, some "failed to create order")

end Orchestrator

/-! Operation sequences over a single service store, for stating that the
terminal statuses are preserved by arbitrary sequences of the four
compensating / finalizing store operations. -/

/-- An Order-store operation: CancelOrder or CompleteOrder. -/
inductive OrderOp
  | cancel (orderID : String)
  | complete (orderID : String)
deriving DecidableEq, Repr

/-- The effect of one Order-store operation on the store. -/
def applyOrderOp (s : OrderStore) : OrderOp → OrderStore
  | OrderOp.cancel orderID => (OrderService.CancelOrder s orderID).1
  | OrderOp.complete orderID => (OrderService.CompleteOrder s orderID).1

/-- The effect of a sequence of Order-store operations. -/
def applyOrderOps (s : OrderStore) : List OrderOp → OrderStore
  | [] => s
  | op :: ops => applyOrderOps (applyOrderOp s op) ops

/-- A Payment-store operation: RefundPayment. -/
inductive PaymentOp
  | refund (orderID paymentID : String)
deriving DecidableEq, Repr

/-- The effect of one Payment-store operation on the store. -/
def applyPaymentOp (s : PaymentStore) : PaymentOp → PaymentStore
  | PaymentOp.refund orderID paymentID => (PaymentService.RefundPayment s orderID paymentID).1

/-- The effect of a sequence of Payment-store operations. -/
def applyPaymentOps (s : PaymentStore) : List PaymentOp → PaymentStore
  | [] => s
  | op :: ops => applyPaymentOps (applyPaymentOp s op) ops

/-- A Shipment-store operation: CancelShipping. -/
inductive ShipmentOp
  | cancelShipping (orderID shipmentID : String)
deriving DecidableEq, Repr

/-- The effect of one Shipment-store operation on the store. -/
def applyShipmentOp (s : ShipmentStore) : ShipmentOp → ShipmentStore
  | ShipmentOp.cancelShipping orderID shipmentID =>
      (ShippingService.CancelShipping s orderID shipmentID).1

/-- The effect of a sequence of Shipment-store operations. -/
def applyShipmentOps (s : ShipmentStore) : List ShipmentOp → ShipmentStore
  | [] => s
  | op :: ops => applyShipmentOps (applyShipmentOp s op) ops

/-! Concrete inputs used by witnesses and counterexamples. -/

/-- Example order details: the spec's end-to-end scenario. -/
def exampleDetails : OrderDetails :=
  { userId := "u1", items := [{ productId := "A", quantity := 2, price := 21/2 }] }

/-- Example shipping address. -/
def exampleAddr : ShippingAddress :=
  { street := "Jl. Sudirman", city := "Jakarta", state := "DKI", zipCode := "10110",
    country := "ID" }

/-- A system in which no record exists yet. -/
def emptyWorld : World := { orders := [], payments := [], shipments := [] }

/-- An environment in which every call is delivered and both random draws
succeed. -/
def envAllOk : SagaEnv :=
  { createOrderDelivered := true
    processPaymentDelivered := true
    paymentSucceeded := true
    arrangeShippingDelivered := true
    shippingSucceeded := true
    cancelShippingDelivered := true
    refundPaymentDelivered := true
    cancelOrderDelivered := true
    completeOrderDelivered := true }

/-- An order store holding one COMPLETED order record. -/
def completedOrderStore : OrderStore :=
  [("order-u1",
    { id := "order-u1", userId := "u1", items := [], totalAmount := 0,
      status := OrderStatus.COMPLETED })]

/-- A payment store holding one SUCCESS payment owned by order B. -/
def crossOwnedPaymentStore : PaymentStore :=
  [("pay-order-b",
    { id := "pay-order-b", orderId := "order-b", amount := 21,
      status := PaymentStatus.SUCCESS, transactionId := "" })]

/-! Helper lemmas. -/

theorem str_append_ne_empty (p u : String) (hp : p.length ≠ 0) : p ++ u ≠ "" := by
  intro h
  have h2 := congrArg String.length h
  rw [String.length_append, String.length_empty] at h2
  omega

theorem order_id_ne_empty (u : String) : ¬("order-" ++ u = "") :=
  str_append_ne_empty "order-" u (by decide)

theorem pay_id_ne_empty (u : String) : ¬("pay-" ++ u = "") :=
  str_append_ne_empty "pay-" u (by decide)

theorem storeGet_storeSet_self (k : String) (v : α) (s : Store α) :
    storeGet k (storeSet k v s) = some v := by
  induction s with
  | nil => simp [storeSet, storeGet]
  | cons hd tl ih =>
      obtain ⟨k', v'⟩ := hd
      by_cases h : k' = k
      · simp [storeSet, storeGet, h]
      · simp [storeSet, storeGet, h, Ne.symm h, ih]

theorem storeGet_storeSet_ne (h : k₀ ≠ k) (v : α) (s : Store α) :
    storeGet k₀ (storeSet k v s) = storeGet k₀ s := by
  induction s with
  | nil => simp [storeSet, storeGet, h]
  | cons hd tl ih =>
      obtain ⟨k', v'⟩ := hd
      by_cases hk : k' = k
      · subst hk
        simp [storeSet, storeGet, h]
      · by_cases hk0 : k₀ = k'
        · simp [storeSet, storeGet, hk, hk0]
        · simp [storeSet, storeGet, hk, hk0, ih]

theorem cancelOrder_preserves_cancelled (s : OrderStore) (k oid : String)
    (h : Option.map Order.status (storeGet k s) = some OrderStatus.CANCELLED) :
    Option.map Order.status (storeGet k (OrderService.CancelOrder s oid).1)
      = some OrderStatus.CANCELLED := by
  unfold OrderService.CancelOrder
  cases hs : storeGet oid s with
  | none => simpa using h
  | some order =>
      by_cases hst : order.status = OrderStatus.CANCELLED
      · simpa [hst] using h
      · simp only [hst, if_neg, ite_false]
        by_cases hk : k = oid
        · subst hk
          rw [hs] at h
          simp only [Option.map] at h
          exact absurd (Option.some.inj h) hst
        · simpa [storeGet_storeSet_ne hk] using h

theorem completeOrder_preserves_not_pending (s : OrderStore) (k oid : String)
    (st : OrderStatus) (hst : st ≠ OrderStatus.PENDING)
    (h : Option.map Order.status (storeGet k s) = some st) :
    Option.map Order.status (storeGet k (OrderService.CompleteOrder s oid).1) = some st := by
  unfold OrderService.CompleteOrder
  cases hs : storeGet oid s with
  | none => simpa using h
  | some order =>
      by_cases hp : order.status = OrderStatus.PENDING
      · simp only [hp, ite_true]
        by_cases hk : k = oid
        · subst hk
          rw [hs] at h
          simp only [Option.map] at h
          rw [hp] at h
          exact absurd (Option.some.inj h).symm hst
        · simpa [storeGet_storeSet_ne hk] using h
      · simpa [hp] using h

theorem refundPayment_preserves_refunded (s : PaymentStore) (k oid pid : String)
    (h : Option.map Payment.status (storeGet k s) = some PaymentStatus.REFUNDED) :
    Option.map Payment.status (storeGet k (PaymentService.RefundPayment s oid pid).1)
      = some PaymentStatus.REFUNDED := by
  unfold PaymentService.RefundPayment
  cases hs : storeGet pid s with
  | none => simpa using h
  | some payment =>
      by_cases how : payment.orderId = oid
      · by_cases hr : payment.status = PaymentStatus.REFUNDED
        · simpa [how, hr] using h
        · by_cases hf : payment.status = PaymentStatus.FAILED
          · simpa [how, hr, hf] using h
          · simp only [how, hr, hf, ite_false, ite_true, ne_eq, not_true_eq_false,
              not_false_eq_true]
            by_cases hk : k = pid
            · subst hk
              rw [hs] at h
              simp only [Option.map] at h
              exact absurd (Option.some.inj h) hr
            · simpa [storeGet_storeSet_ne hk] using h
      · simpa [how] using h

theorem cancelShipping_preserves_cancelled (s : ShipmentStore) (k oid sid : String)
    (h : Option.map Shipment.status (storeGet k s) = some ShippingStatus.CANCELLED) :
    Option.map Shipment.status (storeGet k (ShippingService.CancelShipping s oid sid).1)
      = some ShippingStatus.CANCELLED := by
  unfold ShippingService.CancelShipping
  cases hs : storeGet sid s with
  | none => simpa using h
  | some shipment =>
      by_cases how : shipment.orderId = oid
      · by_cases hc : shipment.status = ShippingStatus.CANCELLED
        · simpa [how, hc] using h
        · simp only [how, hc, ite_false, ite_true, ne_eq, not_true_eq_false,
            not_false_eq_true]
          by_cases hk : k = sid
          · subst hk
            rw [hs] at h
            simp only [Option.map] at h
            exact absurd (Option.some.inj h) hc
          · simpa [storeGet_storeSet_ne hk] using h
      · simpa [how] using h

/-- C6 counterexample: CancelOrder moves a COMPLETED order to CANCELLED, so
COMPLETED is not terminal under CancelOrder: on a store holding order
"order-u1" with status COMPLETED, CancelOrder mutates its status. -/
theorem C6_counterexample_cancel_completed :
    Option.map Order.status (storeGet "order-u1" completedOrderStore)
      = some OrderStatus.COMPLETED ∧
    Option.map Order.status
        (storeGet "order-u1" (OrderService.CancelOrder completedOrderStore "order-u1").1)
      = some OrderStatus.CANCELLED ∧
    OrderStatus.CANCELLED ≠ OrderStatus.COMPLETED := by
  refine ⟨by decide, by decide, by decide⟩

/-- C6 (amended): REFUNDED and CANCELLED are terminal — no sequence of
CancelOrder/CompleteOrder (resp. RefundPayment, CancelShipping) operations
moves a record out of them — and COMPLETED is preserved by CompleteOrder,
RefundPayment and CancelShipping, but CancelOrder transitions a COMPLETED
order to CANCELLED. -/
theorem C6_terminal_statuses_amended :
    (∀ (s : OrderStore) (k : String) (ops : List OrderOp),
       Option.map Order.status (storeGet k s) = some OrderStatus.CANCELLED →
       Option.map Order.status (storeGet k (applyOrderOps s ops))
         = some OrderStatus.CANCELLED) ∧
    (∀ (s : PaymentStore) (k : String) (ops : List PaymentOp),
       Option.map Payment.status (storeGet k s) = some PaymentStatus.REFUNDED →
       Option.map Payment.status (storeGet k (applyPaymentOps s ops))
         = some PaymentStatus.REFUNDED) ∧
    (∀ (s : ShipmentStore) (k : String) (ops : List ShipmentOp),
       Option.map Shipment.status (storeGet k s) = some ShippingStatus.CANCELLED →
       Option.map Shipment.status (storeGet k (applyShipmentOps s ops))
         = some ShippingStatus.CANCELLED) ∧
    (∀ (s : OrderStore) (k oid : String),
       Option.map Order.status (storeGet k s) = some OrderStatus.COMPLETED →
       Option.map Order.status (storeGet k (OrderService.CompleteOrder s oid).1)
         = some OrderStatus.COMPLETED) := by
  refine ⟨?_, ?_, ?_, ?_⟩
  · intro s k ops
    induction ops generalizing s with
    | nil => intro h; exact h
    | cons op ops ih =>
        intro h
        cases op with
        | cancel oid =>
            exact ih _ (cancelOrder_preserves_cancelled s k oid h)
        | complete oid =>
            exact ih _ (completeOrder_preserves_not_pending s k oid
              OrderStatus.CANCELLED (by decide) h)
  · intro s k ops
    induction ops generalizing s with
    | nil => intro h; exact h
    | cons op ops ih =>
        intro h
        cases op with
        | refund oid pid =>
            exact ih _ (refundPayment_preserves_refunded s k oid pid h)
  · intro s k ops
    induction ops generalizing s with
    | nil => intro h; exact h
    | cons op ops ih =>
        intro h
        cases op with
        | cancelShipping oid sid =>
            exact ih _ (cancelShipping_preserves_cancelled s k oid sid h)
  · intro s k oid h
    exact completeOrder_preserves_not_pending s k oid OrderStatus.COMPLETED (by decide) h

/-- C6 witness: a CANCELLED order survives a CompleteOrder-then-CancelOrder
sequence, and a COMPLETED order survives CompleteOrder. -/
theorem C6_terminal_statuses_amended_witness :
    Option.map Order.status
        (storeGet "o1"
          (applyOrderOps
            [("o1", { id := "o1", userId := "u", items := [], totalAmount := 0,
                      status := OrderStatus.CANCELLED })]
            [OrderOp.complete "o1", OrderOp.cancel "o1"]))
      = some OrderStatus.CANCELLED ∧
    Option.map Order.status
        (storeGet "order-u1" (OrderService.CompleteOrder completedOrderStore "order-u1").1)
      = some OrderStatus.COMPLETED :=
  ⟨C6_terminal_statuses_amended.1 _ "o1" _ (by decide),
   C6_terminal_statuses_amended.2.2.2 completedOrderStore "order-u1" "order-u1" (by decide)⟩

/-- C7: each compensating action is idempotent — on a record already in its
terminal compensated state it returns success with a message and leaves the
store unchanged, and whenever a call returns success, an immediately repeated
call also returns success and changes nothing. -/
theorem C7_idempotent_compensation :
    (∀ (s : OrderStore) (oid : String) (order : Order),
       storeGet oid s = some order → order.status = OrderStatus.CANCELLED →
       OrderService.CancelOrder s oid =
         (s, Except.ok { success := true, message := "Order already cancelled" })) ∧
    (∀ (s : OrderStore) (oid : String) (s₁ : OrderStore) (r : CompensationResponse),
       OrderService.CancelOrder s oid = (s₁, Except.ok r) →
       r.success = true ∧
       OrderService.CancelOrder s₁ oid =
         (s₁, Except.ok { success := true, message := "Order already cancelled" })) ∧
    (∀ (s : PaymentStore) (oid pid : String) (p : Payment),
       storeGet pid s = some p → p.orderId = oid → p.status = PaymentStatus.REFUNDED →
       PaymentService.RefundPayment s oid pid =
         (s, Except.ok { success := true, message := "Payment already refunded" })) ∧
    (∀ (s : PaymentStore) (oid pid : String) (s₁ : PaymentStore) (r : CompensationResponse),
       PaymentService.RefundPayment s oid pid = (s₁, Except.ok r) →
       r.success = true ∧ (PaymentService.RefundPayment s₁ oid pid).1 = s₁ ∧
       ∃ r₂, (PaymentService.RefundPayment s₁ oid pid).2 = Except.ok r₂ ∧
         r₂.success = true) ∧
    (∀ (s : ShipmentStore) (oid sid : String) (sh : Shipment),
       storeGet sid s = some sh → sh.orderId = oid → sh.status = ShippingStatus.CANCELLED →
       ShippingService.CancelShipping s oid sid =
         (s, Except.ok { success := true, message := "Shipment already cancelled" })) ∧
    (∀ (s : ShipmentStore) (oid sid : String) (s₁ : ShipmentStore) (r : CompensationResponse),
       ShippingService.CancelShipping s oid sid = (s₁, Except.ok r) →
       r.success = true ∧
       ShippingService.CancelShipping s₁ oid sid =
         (s₁, Except.ok { success := true, message := "Shipment already cancelled" })) := by
  refine ⟨?_, ?_, ?_, ?_, ?_, ?_⟩
  · intro s oid order hs hst
    unfold OrderService.CancelOrder
    rw [hs]
    simp [hst]
  · intro s oid s₁ r h
    unfold OrderService.CancelOrder at h
    split at h
    · simp at h
    · rename_i order hs
      split at h
      · rename_i hst
        injection h with h1 h2
        subst h1
        injection h2 with h2
        subst h2
        refine ⟨rfl, ?_⟩
        unfold OrderService.CancelOrder
        rw [hs]
        simp [hst]
      · rename_i hst
        injection h with h1 h2
        subst h1
        injection h2 with h2
        subst h2
        refine ⟨rfl, ?_⟩
        unfold OrderService.CancelOrder
        rw [storeGet_storeSet_self]
        simp
  · intro s oid pid p hs how hst
    unfold PaymentService.RefundPayment
    rw [hs]
    simp [how, hst]
  · intro s oid pid s₁ r h
    unfold PaymentService.RefundPayment at h
    split at h
    · simp at h
    · rename_i p hs
      split at h
      · simp at h
      · rename_i hown
        have how : p.orderId = oid := not_not.mp hown
        split at h
        · rename_i hr
          injection h with h1 h2
          subst h1
          injection h2 with h2
          subst h2
          have hsecond : PaymentService.RefundPayment s oid pid =
              (s, Except.ok { success := true, message := "Payment already refunded" }) := by
            unfold PaymentService.RefundPayment
            rw [hs]
            simp [how, hr]
          exact ⟨rfl, by rw [hsecond], ⟨_, by rw [hsecond], rfl⟩⟩
        · rename_i hr
          split at h
          · rename_i hf
            injection h with h1 h2
            subst h1
            injection h2 with h2
            subst h2
            have hsecond : PaymentService.RefundPayment s oid pid =
                (s, Except.ok
                  { success := true,
                    message := "Payment originally failed, no refund needed" }) := by
              unfold PaymentService.RefundPayment
              rw [hs]
              simp [how, hr, hf]
            exact ⟨rfl, by rw [hsecond], ⟨_, by rw [hsecond], rfl⟩⟩
          · rename_i hf
            injection h with h1 h2
            subst h1
            injection h2 with h2
            subst h2
            have hsecond : PaymentService.RefundPayment
                (storeSet pid { p with status := PaymentStatus.REFUNDED } s) oid pid =
                (storeSet pid { p with status := PaymentStatus.REFUNDED } s,
                 Except.ok { success := true, message := "Payment already refunded" }) := by
              unfold PaymentService.RefundPayment
              rw [storeGet_storeSet_self]
              simp [how]
            exact ⟨rfl, by rw [hsecond], ⟨_, by rw [hsecond], rfl⟩⟩
  · intro s oid sid sh hs how hst
    unfold ShippingService.CancelShipping
    rw [hs]
    simp [how, hst]
  · intro s oid sid s₁ r h
    unfold ShippingService.CancelShipping at h
    split at h
    · simp at h
    · rename_i sh hs
      split at h
      · simp at h
      · rename_i hown
        have how : sh.orderId = oid := not_not.mp hown
        split at h
        · rename_i hc
          injection h with h1 h2
          subst h1
          injection h2 with h2
          subst h2
          refine ⟨rfl, ?_⟩
          unfold ShippingService.CancelShipping
          rw [hs]
          simp [how, hc]
        · rename_i hc
          injection h with h1 h2
          subst h1
          injection h2 with h2
          subst h2
          refine ⟨rfl, ?_⟩
          unfold ShippingService.CancelShipping
          rw [storeGet_storeSet_self]
          simp [how]

/-- C7 witness: cancelling the already-cancelled order "o1" twice succeeds
both times; refunding the SUCCESS payment of `crossOwnedPaymentStore` with its
own order succeeds and a repeat also succeeds without change. -/
theorem C7_idempotent_compensation_witness :
    OrderService.CancelOrder
        [("o1", { id := "o1", userId := "u", items := [], totalAmount := 0,
                  status := OrderStatus.CANCELLED })] "o1" =
      ([("o1", { id := "o1", userId := "u", items := [], totalAmount := 0,
                 status := OrderStatus.CANCELLED })],
       Except.ok { success := true, message := "Order already cancelled" }) ∧
    ((PaymentService.RefundPayment
        (PaymentService.RefundPayment crossOwnedPaymentStore "order-b" "pay-order-b").1
        "order-b" "pay-order-b").1 =
      (PaymentService.RefundPayment crossOwnedPaymentStore "order-b" "pay-order-b").1 ∧
     ∃ r₂, (PaymentService.RefundPayment
        (PaymentService.RefundPayment crossOwnedPaymentStore "order-b" "pay-order-b").1
        "order-b" "pay-order-b").2 = Except.ok r₂ ∧ r₂.success = true) := by
  constructor
  · exact C7_idempotent_compensation.1
      [("o1", { id := "o1", userId := "u", items := [], totalAmount := 0,
                status := OrderStatus.CANCELLED })]
      "o1"
      { id := "o1", userId := "u", items := [], totalAmount := 0,
        status := OrderStatus.CANCELLED }
      (by decide) rfl
  · have h := C7_idempotent_compensation.2.2.2.1 crossOwnedPaymentStore "order-b"
      "pay-order-b"
      (PaymentService.RefundPayment crossOwnedPaymentStore "order-b" "pay-order-b").1
      { success := true, message := "Payment refunded successfully" } rfl
    exact ⟨h.2.1, h.2.2⟩

/-- C8: a compensation call on a missing record fails with NotFound, and on a
record owned by a different order fails with InvalidArgument; in both error
cases the store is returned unchanged. -/
theorem C8_compensation_error_cases :
    (∀ (s : PaymentStore) (oid pid : String),
       storeGet pid s = none →
       PaymentService.RefundPayment s oid pid = (s, Except.error GrpcCode.NotFound)) ∧
    (∀ (s : PaymentStore) (oid pid : String) (p : Payment),
       storeGet pid s = some p → p.orderId ≠ oid →
       PaymentService.RefundPayment s oid pid =
         (s, Except.error GrpcCode.InvalidArgument)) ∧
    (∀ (s : ShipmentStore) (oid sid : String),
       storeGet sid s = none →
       ShippingService.CancelShipping s oid sid = (s, Except.error GrpcCode.NotFound)) ∧
    (∀ (s : ShipmentStore) (oid sid : String) (sh : Shipment),
       storeGet sid s = some sh → sh.orderId ≠ oid →
       ShippingService.CancelShipping s oid sid =
         (s, Except.error GrpcCode.InvalidArgument)) ∧
    (∀ (s : OrderStore) (oid : String),
       storeGet oid s = none →
       OrderService.CancelOrder s oid = (s, Except.error GrpcCode.NotFound)) := by
  refine ⟨?_, ?_, ?_, ?_, ?_⟩
  · intro s oid pid hs
    unfold PaymentService.RefundPayment
    rw [hs]
  · intro s oid pid p hs how
    unfold PaymentService.RefundPayment
    rw [hs]
    simp [how]
  · intro s oid sid hs
    unfold ShippingService.CancelShipping
    rw [hs]
  · intro s oid sid sh hs how
    unfold ShippingService.CancelShipping
    rw [hs]
    simp [how]
  · intro s oid hs
    unfold OrderService.CancelOrder
    rw [hs]

/-- C8 witness: refunding a payment id that does not exist fails with
NotFound, and refunding payment "pay-order-b" (owned by order "order-b") on
behalf of order "order-a" fails with InvalidArgument, leaving the store
unchanged both times. -/
theorem C8_compensation_error_cases_witness :
    PaymentService.RefundPayment [] "order-a" "pay-missing" =
      ([], Except.error GrpcCode.NotFound) ∧
    PaymentService.RefundPayment crossOwnedPaymentStore "order-a" "pay-order-b" =
      (crossOwnedPaymentStore, Except.error GrpcCode.InvalidArgument) :=
  ⟨C8_compensation_error_cases.1 [] "order-a" "pay-missing" rfl,
   C8_compensation_error_cases.2.1 crossOwnedPaymentStore "order-a" "pay-order-b"
     { id := "pay-order-b", orderId := "order-b", amount := 21,
       status := PaymentStatus.SUCCESS, transactionId := "" }
     (by decide) (by decide)⟩

/-- C9: ProcessPayment persists a record on every attempt (SUCCESS and FAILED
alike), while ArrangeShipping persists a record only on success — a carrier
failure returns a call error and leaves the store unchanged. -/
theorem C9_persistence_asymmetry :
    (∀ (succeeded : Bool) (s : PaymentStore) (oid : String) (amount : Rat),
       storeGet ("pay-" ++ oid)
           (PaymentService.ProcessPayment succeeded s oid amount).1 =
         some { id := "pay-" ++ oid, orderId := oid, amount := amount,
                status := if succeeded then PaymentStatus.SUCCESS else PaymentStatus.FAILED,
                transactionId := "" }) ∧
    (∀ (s : ShipmentStore) (oid : String) (addr : ShippingAddress),
       ShippingService.ArrangeShipping false s oid addr =
         (s, Except.error GrpcCode.Internal)) ∧
    (∀ (s : ShipmentStore) (oid : String) (addr : ShippingAddress),
       storeGet ("ship-" ++ oid) (ShippingService.ArrangeShipping true s oid addr).1 =
         some { id := "ship-" ++ oid, orderId := oid, address := addr,
                status := ShippingStatus.SHIPPED }) := by
  refine ⟨?_, ?_, ?_⟩
  · intro succeeded s oid amount
    cases succeeded <;>
      simp [PaymentService.ProcessPayment, storeGet_storeSet_self]
  · intro s oid addr
    rfl
  · intro s oid addr
    simp [ShippingService.ArrangeShipping, storeGet_storeSet_self]

/-- C10: CreateOrder never fails — it always returns order id
"order-" + user id with status PENDING and stores a PENDING record under that
key; a repeated call for the same user id silently overwrites the existing
record, resetting its status to PENDING whatever it was. -/
theorem C10_create_order_overwrites :
    (∀ (s : OrderStore) (d : OrderDetails),
       (OrderService.CreateOrder s d).2 =
         { orderId := "order-" ++ d.userId, status := OrderStatus.PENDING }) ∧
    (∀ (s : OrderStore) (d : OrderDetails),
       storeGet ("order-" ++ d.userId) (OrderService.CreateOrder s d).1 =
         some { id := "order-" ++ d.userId, userId := d.userId, items := d.items,
                totalAmount := calculateTotal d.items, status := OrderStatus.PENDING }) ∧
    (∀ (s : OrderStore) (d : OrderDetails) (r : Order),
       storeGet ("order-" ++ d.userId) s = some r →
       (OrderService.CreateOrder s d).2.orderId = "order-" ++ d.userId ∧
       Option.map Order.status
           (storeGet ("order-" ++ d.userId) (OrderService.CreateOrder s d).1) =
         some OrderStatus.PENDING) := by
  refine ⟨?_, ?_, ?_⟩
  · intro s d
    rfl
  · intro s d
    simp [OrderService.CreateOrder, storeGet_storeSet_self]
  · intro s d r _
    refine ⟨rfl, ?_⟩
    simp [OrderService.CreateOrder, storeGet_storeSet_self]

/-- C10 witness: on a store whose record "order-u1" is COMPLETED, a CreateOrder
call for user "u1" returns the same id and resets the stored status to
PENDING. -/
theorem C10_create_order_overwrites_witness :
    (OrderService.CreateOrder completedOrderStore exampleDetails).2.orderId
        = "order-u1" ∧
    Option.map Order.status
        (storeGet "order-u1" (OrderService.CreateOrder completedOrderStore exampleDetails).1)
      = some OrderStatus.PENDING := by
  have h := C10_create_order_overwrites.2.2 completedOrderStore exampleDetails
    { id := "order-u1", userId := "u1", items := [], totalAmount := 0,
      status := OrderStatus.COMPLETED } (by decide)
  exact h

/-- C1: when CreateOrder and ProcessPayment succeed and ArrangeShipping then
fails (by transport error or carrier failure), the saga returns
"failed to arrange shipping" and the compensation attempts run in exact
reverse order of forward completion: CancelShipping (attempted, skipped since
no shipment id was recorded), then RefundPayment, then CancelOrder. -/
theorem C1_reverse_order_compensation (env : SagaEnv) (w : World)
    (details : OrderDetails) (amount : Rat) (addr : ShippingAddress)
    (h1 : env.createOrderDelivered = true)
    (h2 : env.processPaymentDelivered = true)
    (h3 : env.paymentSucceeded = true)
    (h4 : env.arrangeShippingDelivered = false ∨ env.shippingSucceeded = false) :
    (Orchestrator.ExecuteCreateOrderSaga env w details amount addr).2.2 =
      some "failed to arrange shipping" ∧
    (Orchestrator.ExecuteCreateOrderSaga env w details amount addr).2.1 =
      [SagaEvent.callCreateOrder,
       SagaEvent.callProcessPayment ("order-" ++ details.userId),
       SagaEvent.callArrangeShipping ("order-" ++ details.userId),
       SagaEvent.skipCancelShipping ("order-" ++ details.userId),
       SagaEvent.callRefundPayment ("order-" ++ details.userId)
         ("pay-" ++ ("order-" ++ details.userId)),
       SagaEvent.callCancelOrder ("order-" ++ details.userId)] := by
  rcases h4 with h4 | h4
  · simp [Orchestrator.ExecuteCreateOrderSaga, OrderService.CreateOrder,
      PaymentService.ProcessPayment, Orchestrator.compensateArrangeShipping,
      Orchestrator.compensateProcessPayment, Orchestrator.compensateCreateOrder,
      h1, h2, h3, h4, order_id_ne_empty, pay_id_ne_empty]
  · by_cases h5 : env.arrangeShippingDelivered = true
    · simp [Orchestrator.ExecuteCreateOrderSaga, OrderService.CreateOrder,
        PaymentService.ProcessPayment, ShippingService.ArrangeShipping,
        Orchestrator.compensateArrangeShipping, Orchestrator.compensateProcessPayment,
        Orchestrator.compensateCreateOrder,
        h1, h2, h3, h4, h5, order_id_ne_empty, pay_id_ne_empty]
    · have h5' : env.arrangeShippingDelivered = false := by simpa using h5
      simp [Orchestrator.ExecuteCreateOrderSaga, OrderService.CreateOrder,
        PaymentService.ProcessPayment, Orchestrator.compensateArrangeShipping,
        Orchestrator.compensateProcessPayment, Orchestrator.compensateCreateOrder,
        h1, h2, h3, h5', order_id_ne_empty, pay_id_ne_empty]

/-- C1 witness: with every call delivered but the carrier draw failing, the
saga fails with "failed to arrange shipping" and compensates in the order
skip-CancelShipping, RefundPayment, CancelOrder. -/
theorem C1_reverse_order_compensation_witness :
    (Orchestrator.ExecuteCreateOrderSaga { envAllOk with shippingSucceeded := false }
        emptyWorld exampleDetails 21 exampleAddr).2.2 =
      some "failed to arrange shipping" ∧
    (Orchestrator.ExecuteCreateOrderSaga { envAllOk with shippingSucceeded := false }
        emptyWorld exampleDetails 21 exampleAddr).2.1 =
      [SagaEvent.callCreateOrder,
       SagaEvent.callProcessPayment "order-u1",
       SagaEvent.callArrangeShipping "order-u1",
       SagaEvent.skipCancelShipping "order-u1",
       SagaEvent.callRefundPayment "order-u1" "pay-order-u1",
       SagaEvent.callCancelOrder "order-u1"] :=
  C1_reverse_order_compensation _ emptyWorld exampleDetails 21 exampleAddr
    rfl rfl rfl (Or.inr rfl)

/-- C3: when CreateOrder succeeds and ProcessPayment completes without a call
error but reports business status FAILED, the saga returns
"failed to process payment", the order record ends CANCELLED, and the
shipment store is untouched (so no shipment record exists on a fresh run). -/
theorem C3_payment_business_failure (env : SagaEnv) (w : World)
    (details : OrderDetails) (amount : Rat) (addr : ShippingAddress)
    (h1 : env.createOrderDelivered = true)
    (h2 : env.processPaymentDelivered = true)
    (h3 : env.paymentSucceeded = false)
    (h4 : env.cancelOrderDelivered = true) :
    (Orchestrator.ExecuteCreateOrderSaga env w details amount addr).2.2 =
      some "failed to process payment" ∧
    Option.map Order.status
        (storeGet ("order-" ++ details.userId)
          (Orchestrator.ExecuteCreateOrderSaga env w details amount addr).1.orders) =
      some OrderStatus.CANCELLED ∧
    (Orchestrator.ExecuteCreateOrderSaga env w details amount addr).1.shipments =
      w.shipments := by
  simp [Orchestrator.ExecuteCreateOrderSaga, OrderService.CreateOrder,
    PaymentService.ProcessPayment, OrderService.CancelOrder,
    Orchestrator.compensateProcessPayment, Orchestrator.compensateCreateOrder,
    h1, h2, h3, h4, order_id_ne_empty, storeGet_storeSet_self]

/-- C3 witness: on a fresh system with a FAILED payment draw, the saga fails
with "failed to process payment", the order ends CANCELLED and no shipment
record exists. -/
theorem C3_payment_business_failure_witness :
    (Orchestrator.ExecuteCreateOrderSaga { envAllOk with paymentSucceeded := false }
        emptyWorld exampleDetails 21 exampleAddr).2.2 =
      some "failed to process payment" ∧
    Option.map Order.status
        (storeGet "order-u1"
          (Orchestrator.ExecuteCreateOrderSaga { envAllOk with paymentSucceeded := false }
            emptyWorld exampleDetails 21 exampleAddr).1.orders) =
      some OrderStatus.CANCELLED ∧
    (Orchestrator.ExecuteCreateOrderSaga { envAllOk with paymentSucceeded := false }
        emptyWorld exampleDetails 21 exampleAddr).1.shipments = ([] : ShipmentStore) :=
  C3_payment_business_failure _ emptyWorld exampleDetails 21 exampleAddr
    rfl rfl rfl rfl

/-- C4: when all three forward steps succeed, the saga returns success — for
every outcome of the final CompleteOrder call (including a transport failure),
since the result is `none` whatever the finalize step does. -/
theorem C4_finalize_failure_keeps_success (env : SagaEnv) (w : World)
    (details : OrderDetails) (amount : Rat) (addr : ShippingAddress)
    (h1 : env.createOrderDelivered = true)
    (h2 : env.processPaymentDelivered = true)
    (h3 : env.paymentSucceeded = true)
    (h4 : env.arrangeShippingDelivered = true)
    (h5 : env.shippingSucceeded = true) :
    (Orchestrator.ExecuteCreateOrderSaga env w details amount addr).2.2 = none := by
  simp [Orchestrator.ExecuteCreateOrderSaga, OrderService.CreateOrder,
    PaymentService.ProcessPayment, ShippingService.ArrangeShipping,
    h1, h2, h3, h4, h5]

/-- C4 witness: with the CompleteOrder call failing at transport level after
the three core steps succeeded, the saga still returns success. -/
theorem C4_finalize_failure_keeps_success_witness :
    (Orchestrator.ExecuteCreateOrderSaga { envAllOk with completeOrderDelivered := false }
        emptyWorld exampleDetails 21 exampleAddr).2.2 = none :=
  C4_finalize_failure_keeps_success _ emptyWorld exampleDetails 21 exampleAddr
    rfl rfl rfl rfl rfl

/-- C5: a compensation whose forward step produced no id is skipped entirely
(payment, shipping, and order alike); in particular, when ProcessPayment fails
before a payment id is recorded, no RefundPayment call appears in the trace,
yet CancelOrder is still invoked for the created order. -/
theorem C5_skip_on_missing_id :
    (∀ (env : SagaEnv) (w : World) (oid : String),
       Orchestrator.compensateProcessPayment env w oid "" =
         (w, [SagaEvent.skipRefundPayment oid])) ∧
    (∀ (env : SagaEnv) (w : World) (oid : String),
       Orchestrator.compensateArrangeShipping env w oid "" =
         (w, [SagaEvent.skipCancelShipping oid])) ∧
    (∀ (env : SagaEnv) (w : World),
       Orchestrator.compensateCreateOrder env w none =
         (w, [SagaEvent.skipCancelOrder])) ∧
    (∀ (env : SagaEnv) (w : World) (details : OrderDetails) (amount : Rat)
       (addr : ShippingAddress),
       env.createOrderDelivered = true →
       (env.processPaymentDelivered = false ∨ env.paymentSucceeded = false) →
       ((Orchestrator.ExecuteCreateOrderSaga env w details amount addr).2.1).any
           isCallRefundPayment = false ∧
       SagaEvent.callCancelOrder ("order-" ++ details.userId) ∈
         (Orchestrator.ExecuteCreateOrderSaga env w details amount addr).2.1) := by
  refine ⟨?_, ?_, ?_, ?_⟩
  · intro env w oid
    rfl
  · intro env w oid
    rfl
  · intro env w
    rfl
  · intro env w details amount addr h1 h2
    rcases h2 with h2 | h2
    · simp [Orchestrator.ExecuteCreateOrderSaga, OrderService.CreateOrder,
        Orchestrator.compensateProcessPayment, Orchestrator.compensateCreateOrder,
        h1, h2, order_id_ne_empty, isCallRefundPayment]
    · by_cases h3 : env.processPaymentDelivered = true
      · simp [Orchestrator.ExecuteCreateOrderSaga, OrderService.CreateOrder,
          PaymentService.ProcessPayment, Orchestrator.compensateProcessPayment,
          Orchestrator.compensateCreateOrder,
          h1, h2, h3, order_id_ne_empty, isCallRefundPayment]
      · have h3' : env.processPaymentDelivered = false := by simpa using h3
        simp [Orchestrator.ExecuteCreateOrderSaga, OrderService.CreateOrder,
          Orchestrator.compensateProcessPayment, Orchestrator.compensateCreateOrder,
          h1, h3', order_id_ne_empty, isCallRefundPayment]

/-- C5 witness: the skip equations at concrete arguments, and a run in which
ProcessPayment reports FAILED: no RefundPayment call in the trace, yet
CancelOrder "order-u1" is invoked. -/
theorem C5_skip_on_missing_id_witness :
    Orchestrator.compensateProcessPayment envAllOk emptyWorld "order-u1" "" =
      (emptyWorld, [SagaEvent.skipRefundPayment "order-u1"]) ∧
    ((Orchestrator.ExecuteCreateOrderSaga { envAllOk with paymentSucceeded := false }
        emptyWorld exampleDetails 21 exampleAddr).2.1).any isCallRefundPayment = false ∧
    SagaEvent.callCancelOrder "order-u1" ∈
      (Orchestrator.ExecuteCreateOrderSaga { envAllOk with paymentSucceeded := false }
        emptyWorld exampleDetails 21 exampleAddr).2.1 :=
  ⟨C5_skip_on_missing_id.1 envAllOk emptyWorld "order-u1",
   (C5_skip_on_missing_id.2.2.2 _ emptyWorld exampleDetails 21 exampleAddr
     rfl (Or.inr rfl)).1,
   (C5_skip_on_missing_id.2.2.2 _ emptyWorld exampleDetails 21 exampleAddr
     rfl (Or.inr rfl)).2⟩

/-- C2 counterexample: in a run where every call is delivered and
ProcessPayment reports business status FAILED, the trace contains no
RefundPayment remote call at all — the orchestrator skips it, so the payment
service's refund handler is never the party that resolves the compensation —
and the stored payment record still has status FAILED afterwards. -/
theorem C2_counterexample_no_refund_call :
    ((Orchestrator.ExecuteCreateOrderSaga { envAllOk with paymentSucceeded := false }
        emptyWorld exampleDetails 21 exampleAddr).2.1).any isCallRefundPayment = false ∧
    storeGet "pay-order-u1"
        (Orchestrator.ExecuteCreateOrderSaga { envAllOk with paymentSucceeded := false }
          emptyWorld exampleDetails 21 exampleAddr).1.payments =
      some { id := "pay-order-u1", orderId := "order-u1", amount := 21,
             status := PaymentStatus.FAILED, transactionId := "" } := by
  refine ⟨by decide, by decide⟩

/-- C2 (amended): when ProcessPayment fails, the orchestrator does invoke its
payment-compensation step for the failed step itself, but because no payment
id was recorded the RefundPayment remote call is skipped by the orchestrator's
own skip rule and the refund handler is never consulted; the handler's
nothing-to-refund branch (success without mutation on a FAILED payment) exists
but is reached only if RefundPayment is called directly. -/
theorem C2_amended_refund_skipped (env : SagaEnv) (w : World)
    (details : OrderDetails) (amount : Rat) (addr : ShippingAddress)
    (h1 : env.createOrderDelivered = true)
    (h2 : env.processPaymentDelivered = false ∨ env.paymentSucceeded = false) :
    (Orchestrator.ExecuteCreateOrderSaga env w details amount addr).2.2 =
      some "failed to process payment" ∧
    SagaEvent.skipRefundPayment ("order-" ++ details.userId) ∈
      (Orchestrator.ExecuteCreateOrderSaga env w details amount addr).2.1 ∧
    ((Orchestrator.ExecuteCreateOrderSaga env w details amount addr).2.1).any
        isCallRefundPayment = false ∧
    (∀ (s : PaymentStore) (oid pid : String) (p : Payment),
       storeGet pid s = some p → p.orderId = oid → p.status = PaymentStatus.FAILED →
       PaymentService.RefundPayment s oid pid =
         (s, Except.ok
           { success := true,
             message := "Payment originally failed, no refund needed" })) := by
  have hmain :
      (Orchestrator.ExecuteCreateOrderSaga env w details amount addr).2.2 =
        some "failed to process payment" ∧
      SagaEvent.skipRefundPayment ("order-" ++ details.userId) ∈
        (Orchestrator.ExecuteCreateOrderSaga env w details amount addr).2.1 ∧
      ((Orchestrator.ExecuteCreateOrderSaga env w details amount addr).2.1).any
          isCallRefundPayment = false := by
    rcases h2 with h2 | h2
    · simp [Orchestrator.ExecuteCreateOrderSaga, OrderService.CreateOrder,
        Orchestrator.compensateProcessPayment, Orchestrator.compensateCreateOrder,
        h1, h2, order_id_ne_empty, isCallRefundPayment]
    · by_cases h3 : env.processPaymentDelivered = true
      · simp [Orchestrator.ExecuteCreateOrderSaga, OrderService.CreateOrder,
          PaymentService.ProcessPayment, Orchestrator.compensateProcessPayment,
          Orchestrator.compensateCreateOrder,
          h1, h2, h3, order_id_ne_empty, isCallRefundPayment]
      · have h3' : env.processPaymentDelivered = false := by simpa using h3
        simp [Orchestrator.ExecuteCreateOrderSaga, OrderService.CreateOrder,
          Orchestrator.compensateProcessPayment, Orchestrator.compensateCreateOrder,
          h1, h3', order_id_ne_empty, isCallRefundPayment]
  refine ⟨hmain.1, hmain.2.1, hmain.2.2, ?_⟩
  intro s oid pid p hs how hst
  unfold PaymentService.RefundPayment
  rw [hs]
  simp [how, hst]

/-- C2 witness: the amended statement instantiated at a concrete FAILED-payment
run and at a concrete FAILED payment record. -/
theorem C2_amended_refund_skipped_witness :
    (Orchestrator.ExecuteCreateOrderSaga
        { envAllOk with processPaymentDelivered := false }
        emptyWorld exampleDetails 21 exampleAddr).2.2 =
      some "failed to process payment" ∧
    SagaEvent.skipRefundPayment "order-u1" ∈
      (Orchestrator.ExecuteCreateOrderSaga
        { envAllOk with processPaymentDelivered := false }
        emptyWorld exampleDetails 21 exampleAddr).2.1 :=
  ⟨(C2_amended_refund_skipped _ emptyWorld exampleDetails 21 exampleAddr
      rfl (Or.inl rfl)).1,
   (C2_amended_refund_skipped _ emptyWorld exampleDetails 21 exampleAddr
      rfl (Or.inl rfl)).2.1⟩

end Saga
